import Mathlib

/-!
Verification of the Riot MCP server (src/server.py) against its
specification.  The Python code is shallowly embedded: JSON/Python values
become the inductive type Py, a Python exception escaping a function is
modelled with Except PyExn, and each tool function takes the outcome of
its single outbound HTTP request as an explicit FetchOutcome argument.
-/

namespace Riot

/-- Python values that can flow through the server: None, booleans,
integers, strings, lists and string-keyed dicts (parsed JSON). -/
inductive Py where
  | none
  | bool (b : Bool)
  | int (n : Int)
  | str (s : String)
  | list (xs : List Py)
  | dict (kvs : List (String × Py))

/-- Python exceptions that the modelled code can raise. -/
inductive PyExn where
  | keyError (key : String)
  | attributeError
  | typeError
  | httpStatusError (status : Nat)
deriving DecidableEq

/-- Computations that may raise a Python exception. -/
abbrev PyM (α : Type) := Except PyExn α

/-- Python truthiness of a value. -/
def Py.truthy : Py → Bool
  | .none => false
  | .bool b => b
  | .int n => n != 0
  | .str s => s != ""
  | .list xs => !xs.isEmpty
  | .dict kvs => !kvs.isEmpty

/-- Is the value a dict (isinstance(x, dict))? -/
def Py.isDict : Py → Bool
  | .dict _ => true
  | _ => false

/-- Python hashability: lists and dicts cannot be dict keys. -/
def Py.hashable : Py → Bool
  | .list _ => false
  | .dict _ => false
  | _ => true

/-- Python equality on hashable values, as used for dict-key lookups;
True equals 1 and False equals 0, exactly as in Python. -/
def Py.keyEq : Py → Py → Bool
  | .none, .none => true
  | .bool a, .bool b => a == b
  | .bool a, .int n => (if a then (1 : Int) else 0) == n
  | .int n, .bool a => n == (if a then (1 : Int) else 0)
  | .int a, .int b => a == b
  | .str a, .str b => a == b
  | _, _ => false

/-- Python equality of a value against a string literal. -/
def Py.eqStr : Py → String → Bool
  | .str t, s => t == s
  | _, _ => false

mutual

/-- Python repr() of a value. -/
def Py.pyrepr : Py → String
  | .none => "None"
  | .bool true => "True"
  | .bool false => "False"
  | .int n => toString n
  | .str s => "\x27" ++ s ++ "\x27"
  | .list xs => "[" ++ Py.pyreprSeq xs ++ "]"
  | .dict kvs => "\x7b" ++ Py.pyreprKVs kvs ++ "\x7d"

/-- Comma-separated repr of list elements. -/
def Py.pyreprSeq : List Py → String
  | [] => ""
  | [x] => Py.pyrepr x
  | x :: y :: rest => Py.pyrepr x ++ ", " ++ Py.pyreprSeq (y :: rest)

/-- Comma-separated repr of dict items. -/
def Py.pyreprKVs : List (String × Py) → String
  | [] => ""
  | [(k, v)] => "\x27" ++ k ++ "\x27: " ++ Py.pyrepr v
  | (k, v) :: kv :: rest =>
      "\x27" ++ k ++ "\x27: " ++ Py.pyrepr v ++ ", " ++ Py.pyreprKVs (kv :: rest)

end

/-- Python str() of a value (as used by f-strings). -/
def Py.pystr : Py → String
  | .str s => s
  | p => p.pyrepr

/-- Lookup in a string-keyed association list (Python dict with string
keys; keys of dicts built by the code are unique). -/
def strLookup {α : Type} : List (String × α) → String → Option α
  | [], _ => Option.none
  | (k0, v) :: rest, k => if k0 == k then some v else strLookup rest k

/-- Python d.get(key) on a general value: default None, AttributeError
when the receiver is not a dict. -/
def Py.pyGet (d : Py) (k : String) : PyM Py :=
  match d with
  | .dict kvs => .ok ((strLookup kvs k).getD .none)
  | _ => .error .attributeError

/-- Python d.get(key, default) on a general value. -/
def Py.pyGetD (d : Py) (k : String) (dflt : Py) : PyM Py :=
  match d with
  | .dict kvs => .ok ((strLookup kvs k).getD dflt)
  | _ => .error .attributeError

/-- Python d[key] subscription with a string key: KeyError when the key
is absent, TypeError when the receiver is not a dict. -/
def Py.pySub (d : Py) (k : String) : PyM Py :=
  match d with
  | .dict kvs =>
      match strLookup kvs k with
      | some v => .ok v
      | Option.none => .error (.keyError k)
  | _ => .error .typeError

/-- Python iteration (for x in d): lists yield elements, strings yield
one-character strings, dicts yield keys; other values raise TypeError. -/
def Py.pyIter : Py → PyM (List Py)
  | .list xs => .ok xs
  | .str s => .ok (s.data.map fun c => .str c.toString)
  | .dict kvs => .ok (kvs.map fun kv => .str kv.fst)
  | _ => .error .typeError

/-- Python xs[:k] on a list: negative stops count from the end. -/
def sliceTo {α : Type} (xs : List α) (k : Int) : List α :=
  if 0 ≤ k then xs.take k.toNat else xs.take (xs.length - (-k).toNat)

/-- Python d[:k] followed by iteration: lists and strings slice, other
values raise TypeError. -/
def pySliceIter (d : Py) (k : Int) : PyM (List Py) :=
  match d with
  | .list xs => .ok (sliceTo xs k)
  | .str s => .ok ((sliceTo s.data k).map fun c => Py.str c.toString)
  | _ => .error .typeError

/-- Python a or b (short-circuiting truthiness choice). -/
def pyOr (a b : Py) : Py := if a.truthy then a else b

/-- Python x // d and x % d need an integer receiver (TypeError
otherwise); bool is an int subclass. -/
def Py.pyInt : Py → PyM Int
  | .int n => .ok n
  | .bool b => .ok (if b then 1 else 0)
  | _ => .error .typeError

/-- Python f-string 02d formatting of an integer. -/
def format02d (n : Int) : String :=
  if 0 ≤ n ∧ n < 10 then "0" ++ toString n else toString n

/-- Lookup in a Py-keyed dict (hashability checked like Python). -/
def keyLookup : List (Py × Py) → Py → Option Py
  | [], _ => Option.none
  | (k0, v) :: rest, k => if Py.keyEq k0 k then some v else keyLookup rest k

/-- Python m.get(k, default) on a Py-keyed dict. -/
def pyMapGet (kvs : List (Py × Py)) (k : Py) (dflt : Py) : PyM Py :=
  if k.hashable then .ok ((keyLookup kvs k).getD dflt) else .error .typeError

/-- Python m[k] on a Py-keyed dict. -/
def pyMapSub (kvs : List (Py × Py)) (k : Py) : PyM Py :=
  if k.hashable then
    match keyLookup kvs k with
    | some v => .ok v
    | Option.none => .error (.keyError k.pyrepr)
  else .error .typeError

/-- Assignment m[k] = v on an association list, preserving Python dict
insertion-order semantics. -/
def setAssoc : List (Py × Py) → Py → Py → List (Py × Py)
  | [], k, v => [(k, v)]
  | (k0, v0) :: rest, k, v =>
      if Py.keyEq k0 k then (k0, v) :: rest else (k0, v0) :: setAssoc rest k v

/-- Python m[k] = v including the hashability check. -/
def pyMapSet (kvs : List (Py × Py)) (k v : Py) : PyM (List (Py × Py)) :=
  if k.hashable then .ok (setAssoc kvs k v) else .error .typeError

example : Py.pystr (.list [.int 1, .int 2]) = "[1, 2]" := rfl
example : Py.pystr (.int (-5)) = "-5" := rfl
example : Py.truthy (.dict []) = false := rfl
example : format02d 5 = "05" := rfl
example : format02d 12 = "12" := rfl

/-! ## The server constants (src/server.py lines 16 to 30) -/

/-- REGIONAL_URLS from src/server.py. -/
def REGIONAL_URLS : List (String × String) :=
  [("na", "https://americas.api.riotgames.com"),
   ("euw", "https://europe.api.riotgames.com"),
   ("eune", "https://europe.api.riotgames.com"),
   ("kr", "https://asia.api.riotgames.com"),
   ("jp", "https://asia.api.riotgames.com")]

/-- PLATFORM_URLS from src/server.py. -/
def PLATFORM_URLS : List (String × String) :=
  [("na", "https://na1.api.riotgames.com"),
   ("euw", "https://euw1.api.riotgames.com"),
   ("eune", "https://eun1.api.riotgames.com"),
   ("kr", "https://kr.api.riotgames.com"),
   ("jp", "https://jp1.api.riotgames.com")]

/-- Python URLS[region]: KeyError when the region code is absent. -/
def strMapSub : List (String × String) → String → PyM String
  | [], k => .error (.keyError k)
  | (k0, v) :: rest, k => if k0 == k then .ok v else strMapSub rest k

/-- The recognized region codes. -/
def knownRegions : List String := REGIONAL_URLS.map Prod.fst

/-! ## The fetch adapter riot_req (src/server.py lines 32 to 52) -/

/-- What the single outbound GET in riot_req can come back with: an HTTP
response (status, optional Retry-After header, parsed JSON body), an
httpx.TimeoutException, or another httpx.RequestError. -/
inductive FetchOutcome where
  | response (status : Nat) (retryAfter : Option String) (body : Py)
  | timeout
  | requestError (err : String)

/-- The error dict riot_req builds for handled failures. -/
def errDict (msg : String) : Py :=
  .dict [("error", .bool true), ("message", .str msg)]

/-- riot_req from src/server.py: checks 429, 404, 403, 401 in order and
returns an error dict; response.raise_for_status() raises an uncaught
httpx.HTTPStatusError for any other non-2xx status; a 2xx status returns
the parsed JSON body.  httpx.TimeoutException and httpx.RequestError
from the GET are caught and become error dicts; HTTPStatusError is not a
RequestError, so it escapes. -/
def riot_req : FetchOutcome → PyM Py
  | .timeout => .ok (errDict "Request timeout")
  | .requestError e => .ok (errDict ("Network error " ++ e))
  | .response status retryAfter body =>
      if status = 429 then
        .ok (errDict ("Rate limit hit. Retry after " ++ retryAfter.getD "unknown" ++ " seconds."))
      else if status = 404 then
        .ok (errDict "Resource not found")
      else if status = 403 then
        .ok (errDict "Invalid or expired API key.")
      else if status = 401 then
        .ok (errDict "Unauthorized. Check your API key.")
      else if 200 ≤ status ∧ status < 300 then
        .ok body
      else
        .error (.httpStatusError status)

/-! ## Tool: get_player_id (src/server.py lines 55 to 67) -/

/-- get_player_id from src/server.py.  The outcome of the single HTTP
request is passed explicitly; the URL is built first, so an unknown
region raises KeyError before any fetch. -/
def get_player_id (region name tag_line : String) (outcome : FetchOutcome) : PyM String := do
  let base ← strMapSub REGIONAL_URLS region
  let _url := base ++ "/riot/account/v1/accounts/by-riot-id/" ++ name ++ "/" ++ tag_line
  let data ← riot_req outcome
  if !data.truthy then
    return "Found no account with that name in the server"
  let errFlag ← data.pyGet "error"
  if errFlag.truthy then
    let msg ← data.pySub "message"
    return msg.pystr
  let gn ← data.pySub "gameName"
  let tl ← data.pySub "tagLine"
  let pu ← data.pySub "puuid"
  return "Name:" ++ gn.pystr ++ "#" ++ tl.pystr ++ " PUUID: " ++ pu.pystr

/-! ## Tool: get_champion_masteries (src/server.py lines 69 to 86) -/

/-- One iteration of the mastery loop: the f-string evaluates
championId, championLevel, championPoints left to right with d[k]
subscripts. -/
def renderMastery (m : Py) : PyM String := do
  let cid ← m.pySub "championId"
  let lvl ← m.pySub "championLevel"
  let pts ← m.pySub "championPoints"
  return "Champion " ++ cid.pystr ++ ": Level " ++ lvl.pystr ++ " - " ++ pts.pystr ++ " pts"

/-- A Python for-loop appending f (x) for each x, stopping at the first
exception. -/
def mapExcept (f : Py → PyM String) : List Py → PyM (List String)
  | [] => .ok []
  | x :: rest => do
      let s ← f x
      let r ← mapExcept f rest
      return s :: r

/-- get_champion_masteries from src/server.py. -/
def get_champion_masteries (uuid region : String) (outcome : FetchOutcome) : PyM String := do
  let _base ← strMapSub PLATFORM_URLS region
  let data ← riot_req outcome
  if data.isDict then
    let e ← data.pyGet "error"
    if e.truthy then
      let msg ← data.pySub "message"
      return msg.pystr
  if !data.truthy then
    return "Account does not exist on region"
  let top ← pySliceIter data 10
  let results ← mapExcept renderMastery top
  return String.intercalate "\n" results

/-! ## Tool: get_newest_matches (src/server.py lines 88 to 103) -/

/-- Python "\n".join(results): every element must be a str, otherwise
TypeError. -/
def allStrs : List Py → PyM (List String)
  | [] => .ok []
  | Py.str s :: rest => do
      let r ← allStrs rest
      return s :: r
  | _ :: _ => .error .typeError

/-- get_newest_matches from src/server.py: the upstream list is sliced
client-side with data[:numberOfGames] and joined with newlines. -/
def get_newest_matches (region uuid : String) (numberOfGames : Int) (outcome : FetchOutcome) :
    PyM String := do
  let _base ← strMapSub REGIONAL_URLS region
  let data ← riot_req outcome
  if data.isDict then
    let e ← data.pyGet "error"
    if e.truthy then
      let msg ← data.pySub "message"
      return msg.pystr
  if !data.truthy then
    return "Account has no matches or does not exist"
  let ids ← pySliceIter data numberOfGames
  let results ← allStrs ids
  return String.intercalate "\n" results

/-! ## Tool: get_match_by_id (src/server.py lines 105 to 126) -/

/-- One participant line of get_match_by_id; field subscripts evaluate
left to right as in the f-string. -/
def renderParticipant (p : Py) : PyM String := do
  let rn ← p.pySub "riotIdGameName"
  let cn ← p.pySub "championName"
  let k ← p.pySub "kills"
  let d ← p.pySub "deaths"
  let a ← p.pySub "assists"
  let tsd ← p.pySub "totalTimeSpentDead"
  let w ← p.pySub "win"
  let tp ← p.pySub "timePlayed"
  return rn.pystr ++ " - " ++ cn.pystr ++ " - " ++ k.pystr ++ "/" ++ d.pystr ++ "/" ++ a.pystr
    ++ " time spent dead" ++ tsd.pystr ++ " - " ++ (if w.truthy then "Win" else "Loss")
    ++ " -" ++ tp.pystr

/-- get_match_by_id from src/server.py. -/
def get_match_by_id (region match_id : String) (outcome : FetchOutcome) : PyM String := do
  let _base ← strMapSub REGIONAL_URLS region
  let data ← riot_req outcome
  if !data.truthy then
    return "Match does not exist"
  let e ← data.pyGet "error"
  if e.truthy then
    let msg ← data.pySub "message"
    return msg.pystr
  let info ← data.pySub "info"
  let gm ← info.pySub "gameMode"
  let gd ← info.pySub "gameDuration"
  let gdn ← gd.pyInt
  let header := "Mode: " ++ gm.pystr ++ " - Duration: " ++ toString (Int.fdiv gdn 60) ++ "min"
  let parts ← info.pySub "participants"
  let ps ← parts.pyIter
  let lines ← mapExcept renderParticipant ps
  return String.intercalate "\n" (header :: lines)

/-! ## Tool: get_match_timeline_by_id (src/server.py lines 128 to 200) -/

/-- The participant_map loop (src/server.py lines 143 to 149): for each
participant record take participantId with a subscript, prefer
riotIdGameName, then summonerName, then a synthesized Player label, and
default championName to Unknown. -/
def buildParticipantMap : List Py → List (Py × Py) → PyM (List (Py × Py))
  | [], acc => .ok acc
  | p :: rest, acc => do
      let pid ← p.pySub "participantId"
      let rgn ← p.pyGet "riotIdGameName"
      let sn ← p.pyGet "summonerName"
      let name := pyOr rgn (pyOr sn (.str ("Player " ++ pid.pystr)))
      let champ ← p.pyGetD "championName" (.str "Unknown")
      let acc2 ← pyMapSet acc pid (.dict [("name", name), ("champion", champ)])
      buildParticipantMap rest acc2

/-- get_label from src/server.py lines 150 to 152. -/
def get_label (pm : List (Py × Py)) (pid : Py) : PyM String := do
  let p ← pyMapGet pm pid (.dict [])
  let nm ← p.pyGetD "name" (.str "?")
  let ch ← p.pyGetD "champion" (.str "?")
  return nm.pystr ++ "(" ++ ch.pystr ++ ")"

/-- team_map from src/server.py line 172. -/
def team_map : List (Py × Py) :=
  [(.int 100, .str "Blue Team"), (.int 200, .str "Red Team")]

/-- slot_map from src/server.py line 194. -/
def slot_map : List (Py × Py) :=
  [(.int 1, .str "Q"), (.int 2, .str "W"), (.int 3, .str "E"), (.int 4, .str "R")]

/-- The shared per-frame line header f-string piece
"[{minutes:02d}:{seconds:02d}] ". -/
def stampStr (minutes seconds : Int) : String :=
  "[" ++ format02d minutes ++ ":" ++ format02d seconds ++ "] "

/-- The body of one event line, i.e. everything after the [MM:SS] stamp
of the corresponding f-string in src/server.py lines 160 to 198; returns
none for an unrecognized event type.  The stamp itself is pure and
total, so it is prepended separately in renderEvent. -/
def renderEventBody (pm : List (Py × Py)) (event : Py) : PyM (Option String) := do
  let etype ← event.pyGet "type"
  if etype.eqStr "CHAMPION_KILL" then
    let killer ← event.pyGetD "killerId" (.int 0)
    let victim ← event.pyGetD "victimId" (.int 0)
    let assists ← event.pyGetD "assistingParticipantIds" (.list [])
    let lk ← get_label pm killer
    let lv ← get_label pm victim
    return some ("KILL - Player " ++ lk ++ " killed Player " ++ lv
      ++ " (assists: " ++ assists.pystr ++ ")")
  else if etype.eqStr "BUILDING_KILL" then
    let team ← event.pyGetD "teamId" (.int 0)
    let building ← event.pyGetD "buildingType" (.str "")
    let lane ← event.pyGetD "laneType" (.str "")
    let teamName ← pyMapSub team_map team
    return some ("BUILDING - Team " ++ teamName.pystr ++ " lost " ++ building.pystr
      ++ " (" ++ lane.pystr ++ ")")
  else if etype.eqStr "ELITE_MONSTER_KILL" then
    let killer ← event.pyGetD "killerId" (.int 0)
    let monster ← event.pyGetD "monsterType" (.str "")
    let subtype ← event.pyGetD "monsterSubType" (.str "")
    let lk ← get_label pm killer
    return some ("MONSTER - Player " ++ lk ++ " killed " ++ monster.pystr
      ++ " " ++ subtype.pystr)
  else if etype.eqStr "ITEM_PURCHASED" then
    let participant ← event.pyGetD "participantId" (.int 0)
    let item_id ← event.pyGetD "itemId" (.int 0)
    let lp ← get_label pm participant
    return some ("ITEM - Player " ++ lp ++ " purchased item " ++ item_id.pystr)
  else if etype.eqStr "SKILL_LEVEL_UP" then
    let participant ← event.pyGetD "participantId" (.int 0)
    let skill_slot ← event.pyGetD "skillSlot" (.int 0)
    let skill_name ← pyMapGet slot_map skill_slot (.str skill_slot.pystr)
    let lp ← get_label pm participant
    return some ("SKILL - Player " ++ lp ++ " leveled up " ++ skill_name.pystr)
  else
    return Option.none

/-- One event of the frame loop: the [MM:SS] stamp followed by the
event-specific body. -/
def renderEvent (pm : List (Py × Py)) (minutes seconds : Int) (event : Py) :
    PyM (Option String) :=
  (renderEventBody pm event).map fun b => b.map fun body => stampStr minutes seconds ++ body

/-- The event loop of one frame, in given order; a recognized event
appends exactly one line, an unrecognized one appends nothing. -/
def renderEvents (pm : List (Py × Py)) (minutes seconds : Int) : List Py → PyM (List String)
  | [] => .ok []
  | e :: rest => do
      let line ← renderEvent pm minutes seconds e
      let linesRest ← renderEvents pm minutes seconds rest
      match line with
      | some l => return l :: linesRest
      | Option.none => return linesRest

/-- One frame (src/server.py lines 156 to 198): timestamp defaults to 0,
integer-divide by 1000, then minutes and seconds by floor division and
modulus; events default to the empty list. -/
def renderFrame (pm : List (Py × Py)) (frame : Py) : PyM (List String) := do
  let tsv ← frame.pyGetD "timestamp" (.int 0)
  let tsn ← tsv.pyInt
  let timestamp := Int.fdiv tsn 1000
  let minutes := Int.fdiv timestamp 60
  let seconds := Int.fmod timestamp 60
  let evs ← frame.pyGetD "events" (.list [])
  let events ← evs.pyIter
  renderEvents pm minutes seconds events

/-- The outer frame loop, concatenating event lines frame by frame. -/
def framesLoop (pm : List (Py × Py)) : List Py → PyM (List String)
  | [] => .ok []
  | f :: rest => do
      let ls ← renderFrame pm f
      let more ← framesLoop pm rest
      return ls ++ more

/-- get_match_timeline_by_id from src/server.py.  Note the asymmetry of
line 144: info.get("participants") has no default, while frames,
frameInterval, timestamps and event fields all do. -/
def get_match_timeline_by_id (region match_id : String) (outcome : FetchOutcome) :
    PyM String := do
  let _base ← strMapSub REGIONAL_URLS region
  let data ← riot_req outcome
  if !data.truthy then
    return "Match does not exist"
  let e ← data.pyGet "error"
  if e.truthy then
    let msg ← data.pySub "message"
    return msg.pystr
  let info ← data.pyGetD "info" (.dict [])
  let framesV ← info.pyGetD "frames" (.list [])
  let partsV ← info.pyGet "participants"
  let parts ← partsV.pyIter
  let pm ← buildParticipantMap parts []
  let fiv ← info.pyGetD "frameInterval" (.int 0)
  let fiN ← fiv.pyInt
  let header := "Match: " ++ match_id ++ " - Frame interval: "
    ++ toString (Int.fdiv fiN 1000) ++ "s"
  let frames ← framesV.pyIter
  let lines ← framesLoop pm frames
  return String.intercalate "\n" (header :: lines)

/-! ## Helper lemmas -/

@[simp] theorem pym_bind_ok {α β : Type} (a : α) (f : α → PyM β) :
    (Except.ok a : PyM α) >>= f = f a := rfl

@[simp] theorem pym_bind_err {α β : Type} (e : PyExn) (f : α → PyM β) :
    (Except.error e : PyM α) >>= f = .error e := rfl

@[simp] theorem pym_pure {α : Type} (a : α) : (pure a : PyM α) = .ok a := rfl

/-- The error dict is truthy, carries the error flag and its message. -/
theorem errDict_props (m : String) :
    (errDict m).truthy = true ∧ (errDict m).pyGet "error" = .ok (.bool true)
    ∧ (errDict m).pySub "message" = .ok (.str m) := by
  refine ⟨rfl, rfl, rfl⟩

theorem get_player_id_err (region name tag base : String) (o : FetchOutcome) (m : String)
    (hr : strMapSub REGIONAL_URLS region = .ok base)
    (hm : riot_req o = .ok (errDict m)) :
    get_player_id region name tag o = .ok m := by
  simp [get_player_id, hr, hm, errDict, Py.truthy, Py.pyGet, Py.pySub, strLookup,
    Py.pystr]

theorem get_champion_masteries_err (uuid region pbase : String) (o : FetchOutcome) (m : String)
    (hp : strMapSub PLATFORM_URLS region = .ok pbase)
    (hm : riot_req o = .ok (errDict m)) :
    get_champion_masteries uuid region o = .ok m := by
  simp [get_champion_masteries, hp, hm, errDict, Py.truthy, Py.isDict, Py.pyGet,
    Py.pySub, strLookup, Py.pystr]

theorem get_newest_matches_err (region uuid base : String) (n : Int) (o : FetchOutcome)
    (m : String)
    (hr : strMapSub REGIONAL_URLS region = .ok base)
    (hm : riot_req o = .ok (errDict m)) :
    get_newest_matches region uuid n o = .ok m := by
  simp [get_newest_matches, hr, hm, errDict, Py.truthy, Py.isDict, Py.pyGet,
    Py.pySub, strLookup, Py.pystr]

theorem get_match_by_id_err (region mid base : String) (o : FetchOutcome) (m : String)
    (hr : strMapSub REGIONAL_URLS region = .ok base)
    (hm : riot_req o = .ok (errDict m)) :
    get_match_by_id region mid o = .ok m := by
  simp [get_match_by_id, hr, hm, errDict, Py.truthy, Py.pyGet, Py.pySub, strLookup,
    Py.pystr]

theorem get_match_timeline_by_id_err (region mid base : String) (o : FetchOutcome) (m : String)
    (hr : strMapSub REGIONAL_URLS region = .ok base)
    (hm : riot_req o = .ok (errDict m)) :
    get_match_timeline_by_id region mid o = .ok m := by
  simp [get_match_timeline_by_id, hr, hm, errDict, Py.truthy, Py.pyGet, Py.pySub,
    strLookup, Py.pystr]

/-- The fetch outcomes that riot_req converts to an error dict. -/
def handledErrOutcome : FetchOutcome → Bool
  | .timeout => true
  | .requestError _ => true
  | .response s _ _ => s == 429 || s == 404 || s == 403 || s == 401

theorem handled_err_message (o : FetchOutcome) (h : handledErrOutcome o = true) :
    ∃ m, riot_req o = .ok (errDict m) := by
  cases o with
  | timeout => exact ⟨"Request timeout", rfl⟩
  | requestError e => exact ⟨"Network error " ++ e, rfl⟩
  | response s ra b =>
      simp only [handledErrOutcome, Bool.or_eq_true, beq_iff_eq] at h
      rcases h with ((h | h) | h) | h <;> subst h
      · exact ⟨"Rate limit hit. Retry after " ++ ra.getD "unknown" ++ " seconds.", rfl⟩
      · exact ⟨"Resource not found", rfl⟩
      · exact ⟨"Invalid or expired API key.", rfl⟩
      · exact ⟨"Unauthorized. Check your API key.", rfl⟩

/-- Does the tool call return a result string (rather than raising)? -/
def returnsOk : PyM String → Bool
  | .ok _ => true
  | .error _ => false

/-! ## Claim C1 -/

/-- C1 counterexample: at status 500 the fetch adapter does not yield
any result at all; raise_for_status raises an uncaught
httpx.HTTPStatusError, so the claimed generic HttpError result for other
non-2xx statuses does not exist. -/
theorem C1_counterexample :
    riot_req (FetchOutcome.response 500 Option.none (Py.dict [])) =
      .error (.httpStatusError 500) := rfl

/-- C1 (amended): the fetch adapter maps 429 to a rate-limit message
containing the Retry-After value (or the literal unknown), 404 to
Resource not found, 403 to Invalid or expired API key, 401 to
Unauthorized, and a 2xx status to the parsed JSON body; any other
non-2xx status raises an uncaught HTTPStatusError carrying the status
instead of returning a generic HttpError result. -/
theorem C1_fetch_mapping (ra : Option String) (body : Py) (s : Nat) :
    riot_req (.response 429 ra body) =
        .ok (errDict ("Rate limit hit. Retry after " ++ ra.getD "unknown" ++ " seconds."))
    ∧ riot_req (.response 404 ra body) = .ok (errDict "Resource not found")
    ∧ riot_req (.response 403 ra body) = .ok (errDict "Invalid or expired API key.")
    ∧ riot_req (.response 401 ra body) = .ok (errDict "Unauthorized. Check your API key.")
    ∧ (200 ≤ s → s < 300 → riot_req (.response s ra body) = .ok body)
    ∧ (s ≠ 429 → s ≠ 404 → s ≠ 403 → s ≠ 401 → ¬(200 ≤ s ∧ s < 300) →
        riot_req (.response s ra body) = .error (.httpStatusError s)) := by
  refine ⟨rfl, rfl, rfl, rfl, ?_, ?_⟩
  · intro h1 h2
    simp only [riot_req]
    rw [if_neg (by omega), if_neg (by omega), if_neg (by omega), if_neg (by omega),
      if_pos ⟨h1, h2⟩]
  · intro h1 h2 h3 h4 h5
    simp only [riot_req]
    rw [if_neg h1, if_neg h2, if_neg h3, if_neg h4, if_neg h5]

/-- C1 witness: the amended mapping at status 200 and at status 500. -/
theorem C1_fetch_mapping_witness :
    riot_req (.response 200 Option.none (Py.dict [("x", Py.int 1)])) =
        .ok (Py.dict [("x", Py.int 1)])
    ∧ riot_req (.response 500 Option.none (Py.int 0)) = .error (.httpStatusError 500) := by
  refine ⟨(C1_fetch_mapping Option.none (Py.dict [("x", Py.int 1)]) 200).2.2.2.2.1
    (by decide) (by decide), ?_⟩
  exact (C1_fetch_mapping Option.none (Py.int 0) 500).2.2.2.2.2
    (by decide) (by decide) (by decide) (by decide) (by decide)

/-! ## Claim C2 -/

/-- C2 counterexample: a 500 response makes get_player_id propagate an
uncaught HTTPStatusError out of the tool entrypoint instead of
returning a descriptive string. -/
theorem C2_counterexample :
    get_player_id "na" "Ann" "EUW" (FetchOutcome.response 500 Option.none (Py.dict [])) =
      .error (.httpStatusError 500) := rfl

/-- C2 (amended): for the fetch outcomes that riot_req normalizes (HTTP
429, 404, 403, 401, a timeout, or a transport error) and a recognized
region, every one of the five tools returns a string result; the
modelled tools are pure functions of their arguments, so a failed call
leaves no state behind.  Other non-2xx statuses (see the
counterexample), unknown regions and missing fields do escape as
exceptions. -/
theorem C2_handled_errors_return_strings (region name tag uuid mid base pbase : String)
    (n : Int) (o : FetchOutcome)
    (hr : strMapSub REGIONAL_URLS region = .ok base)
    (hp : strMapSub PLATFORM_URLS region = .ok pbase)
    (ho : handledErrOutcome o = true) :
    returnsOk (get_player_id region name tag o) = true
    ∧ returnsOk (get_champion_masteries uuid region o) = true
    ∧ returnsOk (get_newest_matches region uuid n o) = true
    ∧ returnsOk (get_match_by_id region mid o) = true
    ∧ returnsOk (get_match_timeline_by_id region mid o) = true := by
  obtain ⟨m, hm⟩ := handled_err_message o ho
  refine ⟨?_, ?_, ?_, ?_, ?_⟩
  · rw [get_player_id_err region name tag base o m hr hm]; rfl
  · rw [get_champion_masteries_err uuid region pbase o m hp hm]; rfl
  · rw [get_newest_matches_err region uuid base n o m hr hm]; rfl
  · rw [get_match_by_id_err region mid base o m hr hm]; rfl
  · rw [get_match_timeline_by_id_err region mid base o m hr hm]; rfl

/-- C2 witness: all five tools return a string on a timeout for region
na. -/
theorem C2_handled_errors_return_strings_witness :
    returnsOk (get_player_id "na" "Ann" "EUW" FetchOutcome.timeout) = true
    ∧ returnsOk (get_champion_masteries "uuid-1" "na" FetchOutcome.timeout) = true
    ∧ returnsOk (get_newest_matches "na" "uuid-1" 3 FetchOutcome.timeout) = true
    ∧ returnsOk (get_match_by_id "na" "NA1_100" FetchOutcome.timeout) = true
    ∧ returnsOk (get_match_timeline_by_id "na" "NA1_100" FetchOutcome.timeout) = true :=
  C2_handled_errors_return_strings "na" "Ann" "EUW" "uuid-1" "NA1_100"
    "https://americas.api.riotgames.com" "https://na1.api.riotgames.com" 3
    FetchOutcome.timeout rfl rfl rfl

/-! ## Claim C3 -/

/-- C3: whenever the fetch adapter produces an error result (of any
kind: rate limited, not found, forbidden, unauthorized, timeout or
network error, i.e. any outcome with riot_req returning an error dict
with message m), each of the five tools returns exactly m, with no
additional formatting. -/
theorem C3_error_message_passthrough (region name tag uuid mid base pbase : String)
    (n : Int) (o : FetchOutcome) (m : String)
    (hr : strMapSub REGIONAL_URLS region = .ok base)
    (hp : strMapSub PLATFORM_URLS region = .ok pbase)
    (hm : riot_req o = .ok (errDict m)) :
    get_player_id region name tag o = .ok m
    ∧ get_champion_masteries uuid region o = .ok m
    ∧ get_newest_matches region uuid n o = .ok m
    ∧ get_match_by_id region mid o = .ok m
    ∧ get_match_timeline_by_id region mid o = .ok m :=
  ⟨get_player_id_err region name tag base o m hr hm,
   get_champion_masteries_err uuid region pbase o m hp hm,
   get_newest_matches_err region uuid base n o m hr hm,
   get_match_by_id_err region mid base o m hr hm,
   get_match_timeline_by_id_err region mid base o m hr hm⟩

/-- C3 witness: a rate-limited response with Retry-After 7 yields
exactly the rate-limit message from every tool. -/
theorem C3_error_message_passthrough_witness :
    get_player_id "euw" "Ann" "EUW" (.response 429 (some "7") (Py.dict [])) =
        .ok "Rate limit hit. Retry after 7 seconds."
    ∧ get_champion_masteries "uuid-1" "euw" (.response 429 (some "7") (Py.dict [])) =
        .ok "Rate limit hit. Retry after 7 seconds."
    ∧ get_newest_matches "euw" "uuid-1" 3 (.response 429 (some "7") (Py.dict [])) =
        .ok "Rate limit hit. Retry after 7 seconds."
    ∧ get_match_by_id "euw" "EUW1_5" (.response 429 (some "7") (Py.dict [])) =
        .ok "Rate limit hit. Retry after 7 seconds."
    ∧ get_match_timeline_by_id "euw" "EUW1_5" (.response 429 (some "7") (Py.dict [])) =
        .ok "Rate limit hit. Retry after 7 seconds." :=
  C3_error_message_passthrough "euw" "Ann" "EUW" "uuid-1" "EUW1_5"
    "https://europe.api.riotgames.com" "https://euw1.api.riotgames.com" 3
    (.response 429 (some "7") (Py.dict [])) "Rate limit hit. Retry after 7 seconds."
    rfl rfl rfl

/-! ## Claim C4 -/

/-- Every recognized region code resolves to two distinct non-empty
URLs, one regional and one platform. -/
def regionResolverOk : Bool :=
  knownRegions.all fun r =>
    match strLookup REGIONAL_URLS r, strLookup PLATFORM_URLS r with
    | some ru, some pu => ru != pu && ru != "" && pu != ""
    | _, _ => false

/-- C4: recognized codes do resolve to two distinct non-empty URLs, but
an unrecognized code (br) does not fail with an explicit unknown-region
error as the claim requires: the source propagates the raw missing-key
KeyError out of the tool, which the spec itself marks as a defect of
the source. -/
theorem C4_region_resolver :
    regionResolverOk = true
    ∧ get_player_id "br" "Ann" "EUW" FetchOutcome.timeout = .error (.keyError "br")
    ∧ strMapSub REGIONAL_URLS "br" = .error (.keyError "br") := ⟨rfl, rfl, rfl⟩

/-! ## Claim C5 -/

/-- C5: a BUILDING_KILL event renders as BUILDING - Team teamName lost
buildingType (laneType), with team id 100 mapping to Blue Team and 200
to Red Team; for any other team id, and for an absent teamId field
(which defaults to 0), team_map[team] raises KeyError and the render of
that line fails. -/
theorem C5_building_kill (pm : List (Py × Py)) (minutes seconds : Int) (b l : String)
    (t : Int) (h100 : t ≠ 100) (h200 : t ≠ 200) :
    renderEvent pm minutes seconds (Py.dict [("type", .str "BUILDING_KILL"),
        ("teamId", .int 100), ("buildingType", .str b), ("laneType", .str l)])
      = .ok (some (stampStr minutes seconds ++ ("BUILDING - Team " ++ "Blue Team"
          ++ " lost " ++ b ++ " (" ++ l ++ ")")))
    ∧ renderEvent pm minutes seconds (Py.dict [("type", .str "BUILDING_KILL"),
        ("teamId", .int 200), ("buildingType", .str b), ("laneType", .str l)])
      = .ok (some (stampStr minutes seconds ++ ("BUILDING - Team " ++ "Red Team"
          ++ " lost " ++ b ++ " (" ++ l ++ ")")))
    ∧ renderEvent pm minutes seconds (Py.dict [("type", .str "BUILDING_KILL"),
        ("teamId", .int t), ("buildingType", .str b), ("laneType", .str l)])
      = .error (.keyError (toString t))
    ∧ renderEvent pm minutes seconds (Py.dict [("type", .str "BUILDING_KILL")])
      = .error (.keyError "0") := by
  have e1 : ((100 : Int) == t) = false := beq_eq_false_iff_ne.mpr (by omega)
  have e2 : ((200 : Int) == t) = false := beq_eq_false_iff_ne.mpr (by omega)
  refine ⟨rfl, rfl, ?_, rfl⟩
  simp [renderEvent, renderEventBody, Py.pyGet, Py.pyGetD, strLookup, Py.eqStr,
    pyMapSub, Py.hashable, keyLookup, team_map, Py.keyEq, e1, e2, Py.pyrepr, Except.map]

/-- C5 witness: team 100 renders a Blue Team line; team 300 fails with a
KeyError. -/
theorem C5_building_kill_witness :
    renderEvent [] 2 5 (Py.dict [("type", .str "BUILDING_KILL"), ("teamId", .int 100),
        ("buildingType", .str "TOWER_BUILDING"), ("laneType", .str "MID_LANE")])
      = .ok (some "[02:05] BUILDING - Team Blue Team lost TOWER_BUILDING (MID_LANE)")
    ∧ renderEvent [] 2 5 (Py.dict [("type", .str "BUILDING_KILL"), ("teamId", .int 300),
        ("buildingType", .str "TOWER_BUILDING"), ("laneType", .str "MID_LANE")])
      = .error (.keyError "300") := by
  have h := C5_building_kill [] 2 5 "TOWER_BUILDING" "MID_LANE" 300 (by decide) (by decide)
  refine ⟨?_, ?_⟩
  · rw [h.1]; rfl
  · rw [h.2.2.1]; rfl

/-! ## Claim C6 -/

/-- A well-formed mastery record as returned upstream: championId,
championLevel, championPoints. -/
def masteryPy (e : Int × Int × Int) : Py :=
  Py.dict [("championId", .int e.1), ("championLevel", .int e.2.1),
    ("championPoints", .int e.2.2)]

/-- The mastery line format of the claim. -/
def masteryLine (e : Int × Int × Int) : String :=
  "Champion " ++ toString e.1 ++ ": Level " ++ toString e.2.1 ++ " - "
    ++ toString e.2.2 ++ " pts"

theorem renderMastery_masteryPy (e : Int × Int × Int) :
    renderMastery (masteryPy e) = .ok (masteryLine e) := rfl

/-- A 200 response returns the parsed body. -/
theorem riot_req_200 (ra : Option String) (body : Py) :
    riot_req (.response 200 ra body) = .ok body := rfl

theorem mapExcept_renderMastery_take (l : List (Int × Int × Int)) (n : Nat) :
    mapExcept renderMastery ((l.map masteryPy).take n) = .ok ((l.map masteryLine).take n) := by
  induction l generalizing n with
  | nil => simp [mapExcept]
  | cons e rest ih =>
      cases n with
      | zero => simp [mapExcept]
      | succ m => simp [mapExcept, renderMastery_masteryPy, ih]

/-- C6: on a 2xx mastery list of length N the tool renders the first
min(N, 10) entries, one line each, in upstream order; an empty list
yields the fixed account-does-not-exist message. -/
theorem C6_champion_masteries (uuid region pbase : String) (ra : Option String)
    (ms : List (Int × Int × Int))
    (hp : strMapSub PLATFORM_URLS region = .ok pbase) :
    get_champion_masteries uuid region (.response 200 ra (.list (ms.map masteryPy)))
      = .ok (if ms.isEmpty then "Account does not exist on region"
             else String.intercalate "\n" ((ms.take 10).map masteryLine))
    ∧ ((ms.take 10).map masteryLine).length = min ms.length 10 := by
  constructor
  · cases ms with
    | nil => simp [get_champion_masteries, hp, riot_req_200, Py.isDict, Py.truthy, Py.pyGet]
    | cons e rest =>
        have hsl2 : pySliceIter (Py.list (masteryPy e :: List.map masteryPy rest)) 10
            = .ok (masteryPy e :: List.take 9 (List.map masteryPy rest)) := by
          simp [pySliceIter, sliceTo]
        simp [get_champion_masteries, hp, riot_req_200, Py.isDict, Py.truthy, Py.pyGet,
          strLookup, hsl2, mapExcept, renderMastery_masteryPy, mapExcept_renderMastery_take]
  · simp [List.length_take]
    omega

/-- C6 witness: one mastery record renders one line; the empty list
renders the fixed message. -/
theorem C6_champion_masteries_witness :
    get_champion_masteries "uuid-1" "na"
        (.response 200 Option.none (.list ([((266 : Int), (7 : Int), (123456 : Int))].map masteryPy)))
      = .ok "Champion 266: Level 7 - 123456 pts"
    ∧ get_champion_masteries "uuid-1" "na"
        (.response 200 Option.none (.list (([] : List (Int × Int × Int)).map masteryPy)))
      = .ok "Account does not exist on region" := by
  have h1 := (C6_champion_masteries "uuid-1" "na" "https://na1.api.riotgames.com"
    Option.none [(266, 7, 123456)] rfl).1
  have h2 := (C6_champion_masteries "uuid-1" "na" "https://na1.api.riotgames.com"
    Option.none [] rfl).1
  refine ⟨?_, ?_⟩
  · rw [h1]; rfl
  · rw [h2]; rfl

/-! ## Claim C7 -/

theorem allStrs_take_map (l : List String) (n : Nat) :
    allStrs ((l.map Py.str).take n) = .ok (l.take n) := by
  induction l generalizing n with
  | nil => simp [allStrs]
  | cons s rest ih =>
      cases n with
      | zero => simp [allStrs]
      | succ m => simp [allStrs, ih]

/-- C7: with a positive requested count and a non-empty 2xx list of
match ids, the tool returns the first min(count, N) ids joined by
newlines, in upstream order; the client-side cap never exceeds the
requested count. -/
theorem C7_newest_matches (region uuid base : String) (ra : Option String)
    (count : Int) (ids : List String)
    (hr : strMapSub REGIONAL_URLS region = .ok base)
    (hpos : 0 < count) (hne : ids ≠ []) :
    get_newest_matches region uuid count (.response 200 ra (.list (ids.map Py.str)))
      = .ok (String.intercalate "\n" (ids.take count.toNat))
    ∧ (ids.take count.toNat).length = min count.toNat ids.length := by
  constructor
  · cases ids with
    | nil => exact absurd rfl hne
    | cons i rest =>
        have hsl2 : pySliceIter (Py.list (Py.str i :: List.map Py.str rest)) count
            = .ok (List.take count.toNat (Py.str i :: List.map Py.str rest)) := by
          simp [pySliceIter, sliceTo, hpos.le]
        have hall : allStrs (List.take count.toNat (Py.str i :: List.map Py.str rest))
            = .ok (List.take count.toNat (i :: rest)) := by
          simpa using allStrs_take_map (i :: rest) count.toNat
        simp [get_newest_matches, hr, riot_req_200, Py.isDict, Py.truthy, Py.pyGet,
          strLookup, hsl2, hall]
  · simp [List.length_take]

/-- C7 witness: count 5 against 3 ids yields the 3 ids; count 2 against
5 ids yields the first 2. -/
theorem C7_newest_matches_witness :
    get_newest_matches "na" "uuid-1" 5
        (.response 200 Option.none (.list (["M1", "M2", "M3"].map Py.str)))
      = .ok "M1\nM2\nM3"
    ∧ get_newest_matches "na" "uuid-1" 2
        (.response 200 Option.none (.list (["M1", "M2", "M3", "M4", "M5"].map Py.str)))
      = .ok "M1\nM2" := by
  have h1 := (C7_newest_matches "na" "uuid-1" "https://americas.api.riotgames.com"
    Option.none 5 ["M1", "M2", "M3"] rfl (by decide) (by decide)).1
  have h2 := (C7_newest_matches "na" "uuid-1" "https://americas.api.riotgames.com"
    Option.none 2 ["M1", "M2", "M3", "M4", "M5"] rfl (by decide) (by decide)).1
  refine ⟨?_, ?_⟩
  · rw [h1]; rfl
  · rw [h2]; rfl

/-! ## Claim C8 -/

/-- Zero-padding a natural number to two digits, as the claim words
state it. -/
def pad2 (n : Nat) : String :=
  if n < 10 then "0" ++ toString n else toString n

/-- The claimed MM:SS stamp: minutes and seconds from timestampMillis by
integer arithmetic, each zero-padded to two digits. -/
def specStamp (ts : Nat) : String :=
  "[" ++ pad2 (ts / 1000 / 60) ++ ":" ++ pad2 (ts / 1000 % 60) ++ "]"

theorem format02d_cast (k : Nat) : format02d (k : Int) = pad2 k := by
  unfold format02d pad2
  by_cases hk : k < 10
  · rw [if_pos hk, if_pos (show (0 : Int) ≤ (k : Int) ∧ (k : Int) < 10 by omega)]
    rfl
  · rw [if_neg hk, if_neg (show ¬((0 : Int) ≤ (k : Int) ∧ (k : Int) < 10) by omega)]
    rfl

/-- The stamp computed by the code (floor division Python semantics on
the millisecond timestamp) equals the claimed stamp plus the trailing
space of the f-string. -/
theorem stampStr_spec (ts : Nat) :
    stampStr (((ts : Int).fdiv 1000).fdiv 60) (((ts : Int).fdiv 1000).fmod 60)
      = specStamp ts ++ " " := by
  have c1000 : (1000 : Int) = ((1000 : Nat) : Int) := rfl
  have c60 : (60 : Int) = ((60 : Nat) : Int) := rfl
  have e1 : ((ts : Int).fdiv 1000).fdiv 60 = ((ts / 1000 / 60 : Nat) : Int) := by
    rw [c1000, c60, ← Int.ofNat_fdiv, ← Int.ofNat_fdiv]
  have e2 : ((ts : Int).fdiv 1000).fmod 60 = ((ts / 1000 % 60 : Nat) : Int) := by
    rw [c1000, c60, ← Int.ofNat_fdiv, ← Int.ofNat_fmod]
  rw [stampStr, e1, e2, format02d_cast, format02d_cast, specStamp]
  simp only [String.append_assoc]
  rfl

theorem renderEvent_stamp (pm : List (Py × Py)) (m s : Int) (e : Py) (l : String)
    (h : renderEvent pm m s e = .ok (some l)) : ∃ r, l = stampStr m s ++ r := by
  unfold renderEvent at h
  cases hb : renderEventBody pm e with
  | error ex => rw [hb] at h; simp [Except.map] at h
  | ok b =>
      rw [hb] at h
      cases b with
      | none => simp [Except.map] at h
      | some body =>
          simp [Except.map] at h
          exact ⟨body, h.symm⟩

theorem renderEvents_stamp (pm : List (Py × Py)) (m s : Int) (evs : List Py)
    (lines : List String) (h : renderEvents pm m s evs = .ok lines) :
    ∀ l ∈ lines, ∃ r, l = stampStr m s ++ r := by
  induction evs generalizing lines with
  | nil =>
      simp only [renderEvents] at h
      injection h with h
      subst h
      intro l hl
      exact absurd hl (List.not_mem_nil l)
  | cons e rest ih =>
      simp only [renderEvents] at h
      cases h1 : renderEvent pm m s e with
      | error ex => rw [h1] at h; simp at h
      | ok lineOpt =>
          rw [h1] at h
          simp only [pym_bind_ok] at h
          cases h2 : renderEvents pm m s rest with
          | error ex => rw [h2] at h; simp at h
          | ok linesRest =>
              rw [h2] at h
              simp only [pym_bind_ok] at h
              cases lineOpt with
              | none =>
                  simp only [pym_pure] at h
                  injection h with h
                  subst h
                  exact ih linesRest h2
              | some l1 =>
                  simp only [pym_pure] at h
                  injection h with h
                  subst h
                  intro l hl
                  rcases List.mem_cons.mp hl with rfl | hl2
                  · exact renderEvent_stamp pm m s e l h1
                  · exact ih linesRest h2 l hl2

/-- C8: every event line of a frame with millisecond timestamp ts is
prefixed by the [MM:SS] stamp with minutes = (ts/1000)/60 and
seconds = (ts/1000)%60, each zero-padded to two digits; 125000
milliseconds give [02:05] and 0 gives [00:00]. -/
theorem C8_frame_stamp (pm : List (Py × Py)) (ts : Nat) (evs : List Py)
    (lines : List String)
    (h : renderFrame pm (Py.dict [("timestamp", Py.int ts), ("events", Py.list evs)])
        = .ok lines) :
    (∀ l ∈ lines, ∃ r, l = specStamp ts ++ r)
    ∧ specStamp 125000 = "[02:05]" ∧ specStamp 0 = "[00:00]" := by
  have hred : renderFrame pm (Py.dict [("timestamp", Py.int ts), ("events", Py.list evs)])
      = renderEvents pm (((ts : Int).fdiv 1000).fdiv 60)
          (((ts : Int).fdiv 1000).fmod 60) evs := rfl
  rw [hred] at h
  refine ⟨?_, rfl, rfl⟩
  intro l hl
  obtain ⟨r, hr2⟩ := renderEvents_stamp pm _ _ evs lines h l hl
  rw [stampStr_spec, String.append_assoc] at hr2
  exact ⟨" " ++ r, hr2⟩

/-- C8 witness: the claimed stamps at 125000 and 0 milliseconds, with
the frame hypothesis discharged on a concrete empty frame. -/
theorem C8_frame_stamp_witness :
    specStamp 125000 = "[02:05]" ∧ specStamp 0 = "[00:00]" :=
  (C8_frame_stamp [] 125000 [] [] rfl).2

/-! ## Claim C10 -/

/-- C10: a 2xx timeline body whose info object lacks the participants
key makes the participant-table construction iterate over None and
raise a TypeError, so the tool returns no string at all; by contrast
frames and frameInterval are defaulted: a body with an empty
participants list and no frames key still renders the header. -/
theorem C10_missing_participants (region mid base : String) (ra : Option String)
    (kvs : List (String × Py))
    (hr : strMapSub REGIONAL_URLS region = .ok base)
    (hnp : strLookup kvs "participants" = Option.none) :
    get_match_timeline_by_id region mid (.response 200 ra (.dict [("info", .dict kvs)]))
      = .error .typeError
    ∧ get_match_timeline_by_id region mid
        (.response 200 ra (.dict [("info", .dict [("participants", .list [])])]))
      = .ok ("Match: " ++ mid ++ " - Frame interval: " ++ "0" ++ "s") := by
  constructor
  · simp [get_match_timeline_by_id, hr, riot_req_200, Py.truthy, Py.pyGet, Py.pyGetD,
      strLookup, hnp, Py.pyIter]
  · simp only [get_match_timeline_by_id, hr, riot_req_200, pym_bind_ok]
    rfl

/-- C10 witness: concrete bodies with and without the participants
key. -/
theorem C10_missing_participants_witness :
    get_match_timeline_by_id "na" "NA1_100"
        (.response 200 Option.none (.dict [("info", .dict [("frames", .list [])])]))
      = .error .typeError
    ∧ get_match_timeline_by_id "na" "NA1_100"
        (.response 200 Option.none (.dict [("info", .dict [("participants", .list [])])]))
      = .ok "Match: NA1_100 - Frame interval: 0s" := by
  have h := C10_missing_participants "na" "NA1_100" "https://americas.api.riotgames.com"
    Option.none [("frames", Py.list [])] rfl rfl
  exact ⟨h.1, by rw [h.2]; rfl⟩

/-! ## Claim C9 -/

/-- C9: within a frame, events are rendered in their given order, each
recognized event yielding exactly one line (the empty event list yields
no lines, and a cons renders its head line, if any, before the lines of
the tail); participant references are rendered by the label function
displayName(championName), falling back to a question mark for each
component when the id is not in the participant table, including the
default id 0 used when the participant field is absent; unrecognized
event types yield no line. -/
theorem C9_event_rendering (pm : List (Py × Py)) (m s : Int) :
    renderEvents pm m s [] = .ok []
    ∧ (∀ e rest lineOpt ls, renderEvent pm m s e = .ok lineOpt →
        renderEvents pm m s rest = .ok ls →
        renderEvents pm m s (e :: rest) = .ok (lineOpt.toList ++ ls))
    ∧ (∀ (pid : Int) (nm ch : String),
        keyLookup pm (Py.int pid)
          = some (Py.dict [("name", Py.str nm), ("champion", Py.str ch)]) →
        get_label pm (Py.int pid) = .ok (nm ++ "(" ++ ch ++ ")"))
    ∧ (∀ pid : Int, keyLookup pm (Py.int pid) = Option.none →
        get_label pm (Py.int pid) = .ok "?(?)")
    ∧ (∀ (k v : Int) (asl : List Int) (lk lv : String),
        get_label pm (Py.int k) = .ok lk → get_label pm (Py.int v) = .ok lv →
        renderEvent pm m s (Py.dict [("type", .str "CHAMPION_KILL"),
            ("killerId", .int k), ("victimId", .int v),
            ("assistingParticipantIds", .list (asl.map Py.int))])
          = .ok (some (stampStr m s ++ ("KILL - Player " ++ lk ++ " killed Player "
              ++ lv ++ " (assists: " ++ (Py.list (asl.map Py.int)).pystr ++ ")"))))
    ∧ (∀ (k : Int) (mt st lk : String), get_label pm (Py.int k) = .ok lk →
        renderEvent pm m s (Py.dict [("type", .str "ELITE_MONSTER_KILL"),
            ("killerId", .int k), ("monsterType", .str mt), ("monsterSubType", .str st)])
          = .ok (some (stampStr m s ++ ("MONSTER - Player " ++ lk ++ " killed "
              ++ mt ++ " " ++ st))))
    ∧ (∀ (p it : Int) (lp : String), get_label pm (Py.int p) = .ok lp →
        renderEvent pm m s (Py.dict [("type", .str "ITEM_PURCHASED"),
            ("participantId", .int p), ("itemId", .int it)])
          = .ok (some (stampStr m s ++ ("ITEM - Player " ++ lp ++ " purchased item "
              ++ toString it))))
    ∧ (∀ l0 : String, get_label pm (Py.int 0) = .ok l0 →
        renderEvent pm m s (Py.dict [("type", .str "ITEM_PURCHASED")])
          = .ok (some (stampStr m s ++ ("ITEM - Player " ++ l0 ++ " purchased item "
              ++ "0"))))
    ∧ (∀ (p : Int) (lp : String), get_label pm (Py.int p) = .ok lp →
        renderEvent pm m s (Py.dict [("type", .str "SKILL_LEVEL_UP"),
            ("participantId", .int p), ("skillSlot", .int 2)])
          = .ok (some (stampStr m s ++ ("SKILL - Player " ++ lp ++ " leveled up "
              ++ "W"))))
    ∧ (∀ (t : String) (extra : List (String × Py)),
        t ≠ "CHAMPION_KILL" → t ≠ "BUILDING_KILL" → t ≠ "ELITE_MONSTER_KILL" →
        t ≠ "ITEM_PURCHASED" → t ≠ "SKILL_LEVEL_UP" →
        renderEvent pm m s (Py.dict (("type", Py.str t) :: extra)) = .ok Option.none)
    ∧ renderEvent pm m s (Py.dict []) = .ok Option.none := by
  refine ⟨rfl, ?_, ?_, ?_, ?_, ?_, ?_, ?_, ?_, ?_, rfl⟩
  · intro e rest lineOpt ls h1 h2
    simp only [renderEvents, h1, h2, pym_bind_ok]
    cases lineOpt <;> rfl
  · intro pid nm ch hk
    simp [get_label, pyMapGet, Py.hashable, hk, Py.pyGetD, strLookup, Py.pystr]
  · intro pid hk
    simp [get_label, pyMapGet, Py.hashable, hk, Py.pyGetD, strLookup, Py.pystr]
  · intro k v asl lk lv hk hv
    simp [renderEvent, renderEventBody, Py.pyGet, Py.pyGetD, strLookup, Py.eqStr,
      hk, hv, Except.map]
  · intro k mt st lk hk
    simp [renderEvent, renderEventBody, Py.pyGet, Py.pyGetD, strLookup, Py.eqStr,
      hk, Except.map, Py.pystr]
  · intro p it lp hp0
    simp [renderEvent, renderEventBody, Py.pyGet, Py.pyGetD, strLookup, Py.eqStr,
      hp0, Except.map, Py.pystr, Py.pyrepr]
  · intro l0 h0
    simp [renderEvent, renderEventBody, Py.pyGet, Py.pyGetD, strLookup, Py.eqStr,
      h0, Except.map, Py.pystr, Py.pyrepr]
    rfl
  · intro p lp hp0
    simp [renderEvent, renderEventBody, Py.pyGet, Py.pyGetD, strLookup, Py.eqStr,
      hp0, Except.map, pyMapGet, Py.hashable, keyLookup, Py.keyEq, slot_map, Py.pystr]
  · intro t extra h1 h2 h3 h4 h5
    have b1 : (t == "CHAMPION_KILL") = false := beq_eq_false_iff_ne.mpr h1
    have b2 : (t == "BUILDING_KILL") = false := beq_eq_false_iff_ne.mpr h2
    have b3 : (t == "ELITE_MONSTER_KILL") = false := beq_eq_false_iff_ne.mpr h3
    have b4 : (t == "ITEM_PURCHASED") = false := beq_eq_false_iff_ne.mpr h4
    have b5 : (t == "SKILL_LEVEL_UP") = false := beq_eq_false_iff_ne.mpr h5
    simp [renderEvent, renderEventBody, Py.pyGet, strLookup, Py.eqStr,
      b1, b2, b3, b4, b5, Except.map]

/-- The participant table used by the C9 witness. -/
def pmW : List (Py × Py) :=
  [(Py.int 1, Py.dict [("name", Py.str "Ann"), ("champion", Py.str "Lux")])]

/-- The champion-kill event used by the C9 witness. -/
def killEvtW : Py :=
  Py.dict [("type", .str "CHAMPION_KILL"), ("killerId", .int 1), ("victimId", .int 2),
    ("assistingParticipantIds", .list ([(3 : Int)].map Py.int))]

/-- C9 witness: labels for a known and an unknown id, one kill line with
both labels, an unrecognized event producing no line, and the in-order
concatenation for a two-event frame. -/
theorem C9_event_rendering_witness :
    get_label pmW (Py.int 1) = .ok "Ann(Lux)"
    ∧ get_label pmW (Py.int 2) = .ok "?(?)"
    ∧ renderEvent pmW 2 5 killEvtW
        = .ok (some "[02:05] KILL - Player Ann(Lux) killed Player ?(?) (assists: [3])")
    ∧ renderEvent pmW 2 5 (Py.dict [("type", Py.str "WARD_PLACED")]) = .ok Option.none
    ∧ renderEvents pmW 2 5 [killEvtW, Py.dict [("type", Py.str "WARD_PLACED")]]
        = .ok ["[02:05] KILL - Player Ann(Lux) killed Player ?(?) (assists: [3])"] := by
  have h := C9_event_rendering pmW 2 5
  obtain ⟨hA, hB, hC, hD, hE, hF, hG, hH, hI, hJ, hK⟩ := h
  refine ⟨?_, ?_, ?_, ?_, ?_⟩
  · rw [hC 1 "Ann" "Lux" rfl]; rfl
  · rw [hD 2 rfl]
  · rw [show killEvtW = Py.dict [("type", .str "CHAMPION_KILL"), ("killerId", .int 1),
        ("victimId", .int 2), ("assistingParticipantIds", .list ([(3 : Int)].map Py.int))]
        from rfl,
      hE 1 2 [3] "Ann(Lux)" "?(?)" (by rw [hC 1 "Ann" "Lux" rfl]; rfl) (by rw [hD 2 rfl])]
    rfl
  · exact hJ "WARD_PLACED" [] (by decide) (by decide) (by decide) (by decide) (by decide)
  · rw [hB killEvtW [Py.dict [("type", Py.str "WARD_PLACED")]]
      (some "[02:05] KILL - Player Ann(Lux) killed Player ?(?) (assists: [3])") []
      (by rw [show killEvtW = Py.dict [("type", .str "CHAMPION_KILL"), ("killerId", .int 1),
          ("victimId", .int 2),
          ("assistingParticipantIds", .list ([(3 : Int)].map Py.int))] from rfl,
        hE 1 2 [3] "Ann(Lux)" "?(?)" (by rw [hC 1 "Ann" "Lux" rfl]; rfl) (by rw [hD 2 rfl])]; rfl)
      (by rw [hB (Py.dict [("type", Py.str "WARD_PLACED")]) [] Option.none []
          (hJ "WARD_PLACED" [] (by decide) (by decide) (by decide) (by decide) (by decide))
          hA]; rfl)]
    rfl

end Riot
